import Mathlib

/-!
Verification development for the ghost_operator incident decision engine.

The TypeScript source is shallowly embedded: every agent method becomes a
pure Lean function, with the external collaborators (Neo4j store, Senso
memory search, Tavily search, Render compute API) modelled as explicit
deterministic environment records passed in as arguments.  JavaScript
strings are modelled as Lean `String` (code points instead of UTF-16
units; all keyword tables in the source are ASCII, so the behaviours
coincide on them), `x.includes(y)` as a substring scan, and
`toLowerCase`/`toUpperCase` as character-wise ASCII case mapping.
`uuid()` action ids and per-call `new Date()` timestamps are external
nondeterminism that no verified property depends on; ids are embedded as
`""` and wall-clock reads as a single `now` parameter.
-/

namespace GhostOperator

/-! ## JavaScript string primitives -/

/-- Character-wise lower casing, the embedding of `String.prototype.toLowerCase`
(ASCII range; the source only matches ASCII keyword tables). -/
def jsLower (s : String) : String := String.mk (s.toList.map Char.toLower)

/-- Character-wise upper casing, the embedding of `String.prototype.toUpperCase`. -/
def jsUpper (s : String) : String := String.mk (s.toList.map Char.toUpper)

/-- Embedding of `String.prototype.substring(0, n)`. -/
def jsSubstr (s : String) (n : Nat) : String := String.mk (s.toList.take n)

/-- Does the first list occur as a leading segment of the second list? -/
def startsWithL : List Char → List Char → Bool
  | [], _ => true
  | _ :: _, [] => false
  | a :: as, b :: bs => a == b && startsWithL as bs

/-- Does `n` occur as a contiguous segment of the second list?  This is the
embedding of `String.prototype.includes`. -/
def subList (n : List Char) : List Char → Bool
  | [] => startsWithL n []
  | c :: rest => startsWithL n (c :: rest) || subList n rest

/-- Embedding of `hay.includes(needle)` on JavaScript strings. -/
def strHasSub (hay needle : String) : Bool := subList needle.toList hay.toList

/-! ## Data model (`src/types`)

The `types` module itself is not among the provided source files; the record
shapes below follow §3 of the specification and the field accesses made by
the agents. -/

/-- Severity values, `'info' | 'warning' | 'critical'`. -/
inductive Severity where
  | info
  | warning
  | critical
deriving DecidableEq, Repr

/-- Modelled from the spec: the `RemediationAction['type']` union of the
repository's `types` module (absent from the provided sources) is
`{restart, scale, resume, alert, noop}` per the specification's data model
(§3); the agent code uses the `restart`, `scale`, `alert` and `noop` values. -/
inductive ActionType where
  | restart
  | scale
  | resume
  | alert
  | noop
deriving DecidableEq, Repr

/-- One detection signal.  The optional `raw` payload is never read by the
embedded agents and is omitted. -/
structure DetectionSignal where
  source : String
  title : String
  summary : String
  url : Option String := none
  timestamp : String
deriving DecidableEq, Repr

/-- One remediation action as produced by `RemediatorAgent.createAction`. -/
structure RemediationAction where
  id : String
  type : ActionType
  targetService : String
  description : String
  reasoning : Option String := none
  executedAt : String
  success : Bool
  validated : Option Bool := none
deriving DecidableEq, Repr

/-- A post-mortem record. -/
structure PostMortem where
  incidentId : String
  title : String
  timeline : String
  rootCause : String
  impact : String
  remediation : String
  lessonsLearned : String
  generatedAt : String
deriving DecidableEq, Repr

/-- The incident record.  `postMortem` is set by the reporter stage only. -/
structure Incident where
  id : String
  title : String
  summary : String
  severity : Severity
  detectedAt : String
  services : List String
  errors : List String
  rootCause : Option String := none
  signals : List DetectionSignal
  remediationActions : List RemediationAction
  resolvedAt : Option String := none
  postMortem : Option PostMortem := none
deriving DecidableEq, Repr

/-! ## Analyzer (`src/src/agents/analyzer.ts`) -/

/-- The fixed catalog `KNOWN_SERVICES`. -/
def KNOWN_SERVICES : List String :=
  ["aws", "amazon", "ec2", "s3", "lambda", "cloudfront", "rds", "dynamodb",
   "azure", "google cloud", "gcp", "gke", "cloud run", "bigquery",
   "render", "vercel", "netlify", "heroku", "cloudflare", "fastly",
   "github", "gitlab", "docker", "kubernetes", "k8s",
   "postgres", "mysql", "redis", "mongodb", "elasticsearch",
   "stripe", "twilio", "sendgrid", "datadog", "pagerduty",
   "slack", "discord", "npm", "pypi"]

/-- The `CRITICAL_KEYWORDS` table. -/
def CRITICAL_KEYWORDS : List String :=
  ["outage", "down", "critical", "major", "complete failure", "data loss", "security breach"]

/-- The `WARNING_KEYWORDS` table. -/
def WARNING_KEYWORDS : List String :=
  ["degraded", "slow", "intermittent", "partial", "elevated error", "latency"]

/-- JavaScript word characters, `\w` = `[A-Za-z0-9_]`. -/
def isWordChar (c : Char) : Bool := c.isAlphanum || c == '_'

/-- Scan for the regex `\b[45]\d{2}\b` (`/g`, non-overlapping), carrying the
previous character to decide the left word boundary; yields each matched
three-digit code. -/
def scanCodes : Option Char → List Char → List String
  | _, [] => []
  | prev, c :: d1 :: d2 :: rest2 =>
    let boundaryBefore := match prev with
      | none => true
      | some p => !isWordChar p
    let boundaryAfter := match rest2 with
      | [] => true
      | e :: _ => !isWordChar e
    if boundaryBefore && (c == '4' || c == '5') && d1.isDigit && d2.isDigit
        && boundaryAfter then
      String.mk [c, d1, d2] :: scanCodes (some d2) rest2
    else
      scanCodes (some c) (d1 :: d2 :: rest2)
  | _, c :: rest => scanCodes (some c) rest

/-- Does one of the (already lower-cased, for case-insensitive patterns)
alternatives match at the head of `t`? -/
def matchAt (ci : Bool) (pat : List Char) (t : List Char) : Bool :=
  startsWithL pat (if ci then t.map Char.toLower else t)

/-- Non-overlapping global scan of a literal-alternation regex, the embedding
of `text.match(/a|b|.../g)`; returns the matched slices of the original
text.  The fuel argument is the remaining text length, which bounds the
recursion. -/
def scanLit (ci : Bool) (alts : List (List Char)) : Nat → List Char → List String
  | 0, _ => []
  | _, [] => []
  | Nat.succ fuel, c :: rest =>
    match alts.find? (fun p => matchAt ci p (c :: rest)) with
    | some p => String.mk ((c :: rest).take p.length) :: scanLit ci alts fuel ((c :: rest).drop p.length)
    | none => scanLit ci alts fuel rest

/-- Run one literal pattern (with alternatives) over a text. -/
def runScan (ci : Bool) (alts : List String) (text : List Char) : List String :=
  scanLit ci (alts.map (fun a => a.toList)) text.length text

/-- Keep the first occurrence of each string, the order-preserving embedding
of inserting into a JavaScript `Set` and reading it back with `Array.from`. -/
def dedupAux : List String → List String → List String
  | _, [] => []
  | seen, x :: xs =>
    if seen.contains x then dedupAux seen xs else x :: dedupAux (seen ++ [x]) xs

/-- First-occurrence deduplication. -/
def dedupFirst (l : List String) : List String := dedupAux [] l

/-- `AnalyzerAgent.extractServices`: case-insensitive catalog filter. -/
def extractServices (text : String) : List String :=
  let lower := jsLower text
  KNOWN_SERVICES.filter (fun svc => strHasSub lower svc)

/-- `AnalyzerAgent.extractErrors`: apply each `ERROR_PATTERNS` regex in order
and collect the distinct matches. -/
def extractErrors (text : String) : List String :=
  let t := text.toList
  dedupFirst
    (scanCodes none t
      ++ runScan true ["timeout"] t
      ++ runScan true ["connection refused"] t
      ++ runScan false ["ECONNREFUSED"] t
      ++ runScan false ["ETIMEDOUT"] t
      ++ runScan true ["oom", "out of memory"] t
      ++ runScan true ["segfault", "segmentation fault"] t
      ++ runScan false ["ENOMEM"] t
      ++ runScan false ["ENOSPC"] t)

/-- `AnalyzerAgent.classifySeverity`: first-match-wins keyword tiers. -/
def classifySeverity (text : String) (signals : List DetectionSignal) : Severity :=
  let lower := jsLower text
  let hasRenderHealth := signals.any (fun s => s.source == "render_health")
  if CRITICAL_KEYWORDS.any (fun kw => strHasSub lower kw) then Severity.critical
  else if hasRenderHealth then Severity.warning
  else if WARNING_KEYWORDS.any (fun kw => strHasSub lower kw) then Severity.warning
  else Severity.info

/-- Does the string match `/5\d{2}/` (anywhere, no word boundary)? -/
def hasFiveCode : List Char → Bool
  | c :: d1 :: d2 :: rest => (c == '5' && d1.isDigit && d2.isDigit) || hasFiveCode (d1 :: d2 :: rest)
  | _ => false

/-- `AnalyzerAgent.inferRootCause`: ordered cue table, first match wins.
The `'ETIMEDOUT'` and `'ENOSPC'` probes are kept exactly as written in the
source even though they are tested against the already lower-cased text. -/
def inferRootCause (text : String) (errors : List String) : Option String :=
  let lower := jsLower text
  if errors.any (fun e => hasFiveCode e.toList) then some "Server-side error detected"
  else if strHasSub lower "timeout" || strHasSub lower "ETIMEDOUT" then some "Service timeout"
  else if strHasSub lower "oom" || strHasSub lower "out of memory" then some "Resource exhaustion (memory)"
  else if strHasSub lower "disk" || strHasSub lower "ENOSPC" then some "Resource exhaustion (disk)"
  else if strHasSub lower "dns" then some "DNS resolution failure"
  else if strHasSub lower "certificate" || strHasSub lower "ssl" || strHasSub lower "tls" then some "TLS/SSL certificate issue"
  else if strHasSub lower "deploy" || strHasSub lower "rollback" then some "Bad deployment"
  else none

/-- `AnalyzerAgent.buildSummary`. -/
def buildSummary (signals : List DetectionSignal) : String :=
  jsSubstr (String.intercalate "\n" (signals.map (fun s => "[" ++ s.source ++ "] " ++ s.summary))) 1000

/-- The concatenated signal text `allText` computed inside `analyze`. -/
def allTextOf (signals : List DetectionSignal) : String :=
  String.intercalate " " (signals.map (fun s => s.title ++ " " ++ s.summary))

/-- `AnalyzerAgent.analyze`.  The generated `uuid()` is taken as the
parameter `newId`. -/
def analyze (newId : String) (signals : List DetectionSignal) : Option Incident :=
  match signals with
  | [] => none
  | primarySignal :: _ =>
    let allText := allTextOf signals
    let services := extractServices allText
    let errors := extractErrors allText
    let severity := classifySeverity allText signals
    let joined := String.intercalate ", " services
    let title := if primarySignal.title.length > 10 then primarySignal.title
      else "Detected anomaly in " ++ (if joined = "" then "unknown service" else joined)
    some
      { id := newId
        title := jsSubstr title 200
        summary := buildSummary signals
        severity := severity
        detectedAt := primarySignal.timestamp
        services := services
        errors := errors
        rootCause := inferRootCause allText errors
        signals := signals
        remediationActions := [] }

/-! ## Remediator (`src/unnamed/part_001`, the history-aware `RemediatorAgent`
adopted by the specification as the design of record)

The collaborators consulted by `remediate`/`validateRemediation` are bundled
into a `RemediatorEnv`: the similar-incident query result, the Senso context
documents, the Tavily guidance string, the Render service list, and the
Render status/act endpoints as deterministic functions of the service id.
The environment is stable for the duration of one run. -/

/-- A live Render compute service as returned by `RenderClient.listServices`
(`type` and `url` are never read by the remediator and are omitted). -/
structure RenderService where
  id : String
  name : String
  status : String
deriving DecidableEq, Repr

/-- One past remediation `{type, success}` aggregated by the History
Advisor. -/
structure PastRemediation where
  type : ActionType
  success : Bool
deriving DecidableEq, Repr

/-- A record returned by `Neo4jClient.findSimilarIncidents`; `remediate`
reads only its `remediations` list (and the number of records). -/
structure PastIncidentRecord where
  remediations : List PastRemediation
deriving DecidableEq, Repr

/-- A Senso context document returned by `SensoClient.searchContext`. -/
structure SensoDoc where
  title : String
  content : String
  score : Rat
deriving DecidableEq, Repr

/-- The collaborator environment of one remediation run. -/
structure RemediatorEnv where
  pastResults : List PastIncidentRecord
  pastContext : List SensoDoc
  tavilyContext : Option String
  renderServices : List RenderService
  statusOf : String → Option String
  restartOk : String → Bool
  scaleOk : String → Bool
  resumeOk : String → Bool
  now : String

/-- The advisory facts computed by `analyzePastRemediations`. -/
structure PastAnalysis where
  restartFailRate : Rat
  scaleSuccessRate : Rat
  hadFailedRestarts : Bool
deriving DecidableEq, Repr

/-- `RemediatorAgent.analyzePastRemediations`. -/
def analyzePastRemediations (remediations : List PastRemediation) : PastAnalysis :=
  let restarts := remediations.filter (fun r => r.type == ActionType.restart)
  let scales := remediations.filter (fun r => r.type == ActionType.scale)
  let failedRestarts := restarts.filter (fun r => !r.success)
  { restartFailRate :=
      if restarts.length > 0 then (failedRestarts.length : Rat) / (restarts.length : Rat) else 0
    scaleSuccessRate :=
      if scales.length > 0 then
        (((scales.filter (fun r => r.success)).length : Rat)) / (scales.length : Rat)
      else 0
    hadFailedRestarts := decide (failedRestarts.length > 0) }

/-- The `escalationKeywords` table of `extractSensoGuidance`. -/
def escalationKeywords : List String :=
  ["scale", "escalat", "capacity", "insufficient", "restart failed", "restart alone"]

/-- `RemediatorAgent.extractSensoGuidance`: for each document, the first
escalation keyword contained in its lower-cased content yields one guidance
line (the inner loop breaks after the first hit). -/
def extractSensoGuidance (pastContext : List SensoDoc) : List String :=
  pastContext.filterMap (fun doc =>
    (escalationKeywords.find? (fun kw => strHasSub (jsLower doc.content) kw)).map
      (fun kw => "Senso post-mortem \"" ++ doc.title ++ "\" suggests: " ++ kw))

/-- `RemediatorAgent.shouldEscalate`. -/
def shouldEscalate (incident : Incident) (pastAnalysis : PastAnalysis)
    (sensoGuidance : List String) : Bool :=
  if incident.severity = Severity.warning ∧ pastAnalysis.hadFailedRestarts = true then true
  else if incident.severity = Severity.warning ∧ sensoGuidance.length > 0 then true
  else false

/-- Embedding of JavaScript `Math.round` (half-up) on rationals. -/
def jsRound (q : Rat) : Int := (q + 1 / 2).floor

/-- `RemediatorAgent.buildEscalationReasoning`. -/
def buildEscalationReasoning (pastAnalysis : PastAnalysis) (sensoGuidance : List String)
    (tavilyContext : Option String) : String :=
  let parts := ["Escalated from restart-only to restart+scale based on:"]
    ++ (if pastAnalysis.hadFailedRestarts then
          ["- Neo4j: past restarts failed "
            ++ toString (jsRound (pastAnalysis.restartFailRate * 100))
            ++ "% of the time for similar incidents"]
        else [])
    ++ (match sensoGuidance with
        | g :: _ => ["- Senso: " ++ g]
        | [] => [])
    ++ (match tavilyContext with
        | some t => ["- Tavily: " ++ jsSubstr t 150]
        | none => [])
  String.intercalate "\n" parts

/-- `RemediatorAgent.createAction`.  The `uuid()` id is embedded as `""` and
the `new Date().toISOString()` stamp as the run's `now`; the TypeScript
default `success = true` is passed explicitly at the call sites that omit
it. -/
def createAction (now : String) (type : ActionType) (target description : String)
    (success : Bool) : RemediationAction :=
  { id := ""
    type := type
    targetService := target
    description := description
    executedAt := now
    success := success }

/-- The service lookup `renderServices.find(rs => rs.name.toLowerCase().includes(q.toLowerCase()))`
shared by `remediate` (with the incident's service name) and
`validateRemediation` (with an action's target service). -/
def findTarget (env : RemediatorEnv) (q : String) : Option RenderService :=
  env.renderServices.find? (fun rs => strHasSub (jsLower rs.name) (jsLower q))

/-- The body of `remediate`'s `for (const svcName of incident.services)` loop:
given the advisory facts already computed, fold one declared service name
into the accumulated action list. -/
def remediateStep (env : RemediatorEnv) (incident : Incident)
    (pastAnalysis : PastAnalysis) (sensoGuidance : List String)
    (acc : List RemediationAction) (svcName : String) : List RemediationAction :=
  match findTarget env svcName with
  | none => acc
  | some m =>
    if m.status = "suspended" then
      acc ++ [{ createAction env.now ActionType.restart m.name
                  ("Resumed suspended service: " ++ m.name) (env.resumeOk m.id) with
                reasoning := some ("Service " ++ m.name
                  ++ " was suspended. Resuming to restore availability.") }]
    else if shouldEscalate incident pastAnalysis sensoGuidance then
      acc ++ [{ createAction env.now ActionType.restart m.name
                  ("Restarted service: " ++ m.name) (env.restartOk m.id) with
                reasoning := some
                  (buildEscalationReasoning pastAnalysis sensoGuidance env.tavilyContext) },
              { createAction env.now ActionType.scale m.name
                  ("Scaled " ++ m.name ++ " to 2 instances") (env.scaleOk m.id) with
                reasoning := some ("Scaling to 2 instances for resilience. "
                  ++ (if pastAnalysis.restartFailRate > 0 then
                        "Past restart-only attempts failed "
                          ++ toString (jsRound (pastAnalysis.restartFailRate * 100))
                          ++ "% of the time."
                      else "")) }]
    else if incident.severity = Severity.critical then
      acc ++ [{ createAction env.now ActionType.restart m.name
                  ("Restarted service: " ++ m.name) (env.restartOk m.id) with
                reasoning := some ("Critical severity with no prior failure history for restarts. Restarting "
                  ++ m.name ++ ".") },
              { createAction env.now ActionType.scale m.name
                  ("Scaled " ++ m.name ++ " to 2 instances") (env.scaleOk m.id) with
                reasoning := some
                  "Critical incident — scaling for redundancy as standard critical protocol." }]
    else
      acc ++ [{ createAction env.now ActionType.restart m.name
                  ("Restarted service: " ++ m.name) (env.restartOk m.id) with
                reasoning := some (if env.pastResults.length > 0 then
                    "Warning severity. Past restarts for similar incidents succeeded — applying same strategy."
                  else
                    "Warning severity. Restarting " ++ m.name
                      ++ " as standard first response.") }]

/-- `RemediatorAgent.remediate`: decide and execute the remediation strategy
for an incident.  The per-service loop is a left fold of `remediateStep`,
exactly as the source pushes into `actions`. -/
def remediate (env : RemediatorEnv) (incident : Incident) : List RemediationAction :=
  let allPastRemediations := env.pastResults.flatMap (fun r => r.remediations)
  let pastAnalysis := analyzePastRemediations allPastRemediations
  let sensoGuidance := extractSensoGuidance env.pastContext
  if incident.severity = Severity.info then
    [{ createAction env.now ActionType.noop "none" "Info-level incident, monitoring only" true with
        reasoning := some "Severity is info — no remediation needed, monitoring only." }]
  else
    let actions :=
      incident.services.foldl (remediateStep env incident pastAnalysis sensoGuidance) []
    if actions = [] then
      [{ createAction env.now ActionType.alert (incident.services.headD "unknown")
          ("Alert: " ++ incident.title ++ " — no auto-remediation available") true with
         reasoning := some (match env.tavilyContext with
           | some t => "No matching Render services. Tavily suggests: " ++ jsSubstr t 200
           | none =>
             "No matching Render services found for auto-remediation. Alerting for manual review.") }]
    else actions

/-- Termination weight of one action in the validation loop: an unhealthy
`restart` spawns a `scale`, an unhealthy `scale` spawns an `alert`, nothing
else spawns anything. -/
def escWeight (a : RemediationAction) : Nat :=
  match a.type with
  | ActionType.restart => 3
  | ActionType.scale => 2
  | _ => 1

/-- Total termination weight of a pending action list. -/
def chainWeight (l : List RemediationAction) : Nat := (l.map escWeight).sum

/-- The escalation scale appended when a validated `restart` is still
unhealthy. -/
def escScaleAction (env : RemediatorEnv) (m : RenderService) : RemediationAction :=
  { createAction env.now ActionType.scale m.name
      ("Escalation: scaled " ++ m.name ++ " to 2 instances after restart failed")
      (env.scaleOk m.id) with
    reasoning := some "Validation failed after restart. Escalating to scale for additional capacity." }

/-- The escalation alert appended when a validated `scale` is still
unhealthy (created through `createAction` with its default `success`). -/
def escAlertAction (env : RemediatorEnv) (m : RenderService) : RemediationAction :=
  { createAction env.now ActionType.alert m.name
      ("Escalation: " ++ m.name ++ " still unhealthy after scale — requires manual intervention")
      true with
    reasoning := some "Validation failed after scaling. Escalating to manual alert." }

/-- The body of `validateRemediation`'s `for...of` loop.  JavaScript array
iteration observes elements pushed during the loop, so escalation actions
appended to `incident.remediationActions` are themselves visited later in
the same pass; the embedding therefore keeps the not-yet-visited suffix as
`pending` and appends escalations to its end.  `fuel` only bounds the
recursion: `chainWeight pending` is always sufficient, because each step
removes one action and appends at most one strictly lighter action. -/
def validateLoop (env : RemediatorEnv) :
    Nat → List RemediationAction → List RemediationAction → Bool → Bool →
      List RemediationAction × Bool × Bool
  | _, [], done, allHealthy, retried => (done, allHealthy, retried)
  | 0, pending, done, allHealthy, retried => (done ++ pending, allHealthy, retried)
  | Nat.succ fuel, action :: rest, done, allHealthy, retried =>
    if action.type = ActionType.noop ∨ action.type = ActionType.alert then
      validateLoop env fuel rest (done ++ [action]) allHealthy retried
    else
      match findTarget env action.targetService with
      | none => validateLoop env fuel rest (done ++ [action]) allHealthy retried
      | some m =>
        let isHealthy : Bool := env.statusOf m.id == some "active"
        let action2 := { action with validated := some isHealthy }
        if isHealthy then
          validateLoop env fuel rest (done ++ [action2]) allHealthy retried
        else if action.type = ActionType.restart then
          validateLoop env fuel (rest ++ [escScaleAction env m]) (done ++ [action2]) false true
        else if action.type = ActionType.scale then
          validateLoop env fuel (rest ++ [escAlertAction env m]) (done ++ [action2]) false true
        else
          validateLoop env fuel rest (done ++ [action2]) false retried

/-- `RemediatorAgent.validateRemediation`: re-check live health for every
non-terminal action, escalate on failure, and set `resolvedAt` when every
check passed.  Returns the updated incident together with the
`{healthy, retried}` result. -/
def validateRemediation (env : RemediatorEnv) (incident : Incident) :
    Incident × Bool × Bool :=
  let r := validateLoop env (chainWeight incident.remediationActions)
    incident.remediationActions [] true false
  ({ incident with
      remediationActions := r.1
      resolvedAt := if r.2.1 then some env.now else incident.resolvedAt },
    r.2.1, r.2.2)

/-- The pipeline wiring of `runPipeline` (src/src/index.ts): the incident's
action list is set to `remediate`'s output and then validated. -/
def remediateAndValidate (env : RemediatorEnv) (incident : Incident) :
    Incident × Bool × Bool :=
  let actions := remediate env incident
  validateRemediation env { incident with remediationActions := actions }

/-! ## Reporter (`src/unnamed/part_000`, `ReporterAgent`) -/

/-- The string value of a severity, as stored on the TypeScript incident. -/
def severityStr : Severity → String
  | Severity.info => "info"
  | Severity.warning => "warning"
  | Severity.critical => "critical"

/-- The string value of an action type. -/
def actionTypeStr : ActionType → String
  | ActionType.restart => "restart"
  | ActionType.scale => "scale"
  | ActionType.resume => "resume"
  | ActionType.alert => "alert"
  | ActionType.noop => "noop"

/-- `ReporterAgent.buildTimeline`. -/
def buildTimeline (incident : Incident) : String :=
  let lines := ["- " ++ incident.detectedAt ++ ": Incident detected"]
    ++ incident.signals.map (fun s =>
        "- " ++ s.timestamp ++ ": [" ++ s.source ++ "] " ++ s.title)
    ++ incident.remediationActions.map (fun a =>
        "- " ++ a.executedAt ++ ": Remediation: " ++ a.description
          ++ " (" ++ (if a.success then "success" else "failed") ++ ")")
    ++ (match incident.resolvedAt with
        | some t => ["- " ++ t ++ ": Incident resolved"]
        | none => [])
  String.intercalate "\n" lines

/-- `ReporterAgent.buildImpact`. -/
def buildImpact (incident : Incident) : String :=
  let parts := ["Severity: " ++ jsUpper (severityStr incident.severity)]
    ++ (if incident.services.length > 0 then
          ["Affected services: " ++ String.intercalate ", " incident.services]
        else [])
    ++ (if incident.errors.length > 0 then
          ["Error codes observed: " ++ String.intercalate ", " incident.errors]
        else [])
  String.intercalate "\n" parts

/-- `ReporterAgent.buildRemediation`. -/
def buildRemediation (incident : Incident) : String :=
  if incident.remediationActions.length = 0 then
    "No automated remediation was performed."
  else
    String.intercalate "\n" (incident.remediationActions.map (fun a =>
      "- [" ++ actionTypeStr a.type ++ "] " ++ a.description ++ " → "
        ++ (if a.success then "Success" else "Failed")))

/-- `ReporterAgent.buildLessons`. -/
def buildLessons (incident : Incident) : String :=
  let lessons := (match incident.rootCause with
      | some rc => ["Root cause identified as: " ++ rc
          ++ ". Ensure monitoring covers this failure mode."]
      | none => [])
    ++ (let failedActions := incident.remediationActions.filter (fun a => !a.success)
        if failedActions.length > 0 then
          [toString failedActions.length
            ++ " remediation action(s) failed. Review and improve automated recovery procedures."]
        else [])
    ++ (if incident.severity = Severity.critical then
          ["Critical incident — consider adding redundancy or circuit breakers for affected services."]
        else [])
  let lessons := if lessons.length = 0 then
      ["Standard incident handling. Continue monitoring and refining detection rules."]
    else lessons
  String.intercalate "\n" lessons

/-- `ReporterAgent.generatePostMortem`: the pure synthesis of the post-mortem
record (its storage side effects live outside the decision core).  The
`new Date().toISOString()` read is the parameter `now`. -/
def generatePostMortem (incident : Incident) (now : String) : PostMortem :=
  { incidentId := incident.id
    title := "Post-Mortem: " ++ incident.title
    timeline := buildTimeline incident
    rootCause := incident.rootCause.getD "Root cause under investigation"
    impact := buildImpact incident
    remediation := buildRemediation incident
    lessonsLearned := buildLessons incident
    generatedAt := now }

/-! ## Claim C1 and C5 statements -/

/-- Does the lower-cased batch text contain some keyword of the table?  This
is the claim-side reading of one severity tier. -/
def tierHits (signals : List DetectionSignal) (table : List String) : Prop :=
  ∃ kw ∈ table, strHasSub (jsLower (allTextOf signals)) kw = true

/-- Is some signal sourced from the direct health-check collaborator? -/
def hasHealthSource (signals : List DetectionSignal) : Prop :=
  ∃ s ∈ signals, s.source = "render_health"

/-! ## Claim-side predicates for the validation loop -/

/-- A terminal action, which the validation loop skips (`noop`/`alert`). -/
def terminalAction (a : RemediationAction) : Prop :=
  a.type = ActionType.noop ∨ a.type = ActionType.alert

instance (a : RemediationAction) : Decidable (terminalAction a) := by
  unfold terminalAction
  infer_instance

/-- The target of the action matches a live service that the status check
reports healthy. -/
def foundHealthy (env : RemediatorEnv) (a : RemediationAction) : Prop :=
  ∃ m, findTarget env a.targetService = some m ∧ env.statusOf m.id = some "active"

/-- The target of the action matches a live service that the status check
reports unhealthy. -/
def foundUnhealthy (env : RemediatorEnv) (a : RemediationAction) : Prop :=
  ∃ m, findTarget env a.targetService = some m ∧ env.statusOf m.id ≠ some "active"

/-- How a successfully validated pass rewrites the original action list:
checked actions are marked `validated := true`, terminal ones are
untouched. -/
def markAllValidated (l : List RemediationAction) : List RemediationAction :=
  l.map (fun a => if terminalAction a then a else { a with validated := some true })

/-- Any critical keyword in the text forces `critical`. -/
lemma classifySeverity_of_crit (text : String) (signals : List DetectionSignal)
    (h : ∃ kw ∈ CRITICAL_KEYWORDS, strHasSub (jsLower text) kw = true) :
    classifySeverity text signals = Severity.critical := by
  unfold classifySeverity
  have hb : (CRITICAL_KEYWORDS.any fun kw => strHasSub (jsLower text) kw) = true :=
    List.any_eq_true.mpr h
  simp [hb]

/-- Auxiliary: negated keyword tier as a `Bool.any` equation. -/
lemma any_kw_false (table : List String) (text : String)
    (h : ¬ ∃ kw ∈ table, strHasSub (jsLower text) kw = true) :
    (table.any fun kw => strHasSub (jsLower text) kw) = false := by
  cases hany : table.any fun kw => strHasSub (jsLower text) kw with
  | false => rfl
  | true => exact absurd (List.any_eq_true.mp hany) h

/-- Absent a critical keyword, a `render_health` signal forces `warning`. -/
lemma classifySeverity_of_health (text : String) (signals : List DetectionSignal)
    (hnc : ¬ ∃ kw ∈ CRITICAL_KEYWORDS, strHasSub (jsLower text) kw = true)
    (hh : ∃ s ∈ signals, s.source = "render_health") :
    classifySeverity text signals = Severity.warning := by
  unfold classifySeverity
  have hr : (signals.any fun s => s.source == "render_health") = true := by
    rw [List.any_eq_true]
    obtain ⟨s, hs, he⟩ := hh
    exact ⟨s, hs, by simp [he]⟩
  simp [any_kw_false _ _ hnc, hr]

/-- Absent both higher tiers, a warning keyword forces `warning`. -/
lemma classifySeverity_of_warn (text : String) (signals : List DetectionSignal)
    (hnc : ¬ ∃ kw ∈ CRITICAL_KEYWORDS, strHasSub (jsLower text) kw = true)
    (hnh : ¬ ∃ s ∈ signals, s.source = "render_health")
    (hw : ∃ kw ∈ WARNING_KEYWORDS, strHasSub (jsLower text) kw = true) :
    classifySeverity text signals = Severity.warning := by
  unfold classifySeverity
  have hr : (signals.any fun s => s.source == "render_health") = false := by
    cases hany : signals.any fun s => s.source == "render_health" with
    | false => rfl
    | true =>
      obtain ⟨s, hs, he⟩ := List.any_eq_true.mp hany
      exact absurd ⟨s, hs, by simpa using he⟩ hnh
  have hb : (WARNING_KEYWORDS.any fun kw => strHasSub (jsLower text) kw) = true :=
    List.any_eq_true.mpr hw
  simp [any_kw_false _ _ hnc, hr, hb]

/-- With no tier matching, severity is `info`. -/
lemma classifySeverity_of_none (text : String) (signals : List DetectionSignal)
    (hnc : ¬ ∃ kw ∈ CRITICAL_KEYWORDS, strHasSub (jsLower text) kw = true)
    (hnh : ¬ ∃ s ∈ signals, s.source = "render_health")
    (hnw : ¬ ∃ kw ∈ WARNING_KEYWORDS, strHasSub (jsLower text) kw = true) :
    classifySeverity text signals = Severity.info := by
  unfold classifySeverity
  have hr : (signals.any fun s => s.source == "render_health") = false := by
    cases hany : signals.any fun s => s.source == "render_health" with
    | false => rfl
    | true =>
      obtain ⟨s, hs, he⟩ := List.any_eq_true.mp hany
      exact absurd ⟨s, hs, by simpa using he⟩ hnh
  simp [any_kw_false _ _ hnc, any_kw_false _ _ hnw, hr]

/-- Claim C1: for every non-empty signal batch, `analyze` returns an incident
whose severity follows the strict first-match-wins tiers over the
concatenated text: a critical keyword forces `critical` irrespective of the
other signals; absent that, a `render_health` signal forces `warning`;
absent both, a warning keyword forces `warning`; otherwise `info`. -/
theorem analyze_severity_first_match_wins (newId : String)
    (signals : List DetectionSignal) (hne : signals ≠ []) :
    ∃ inc, analyze newId signals = some inc ∧
      (tierHits signals CRITICAL_KEYWORDS → inc.severity = Severity.critical) ∧
      (¬ tierHits signals CRITICAL_KEYWORDS → hasHealthSource signals →
        inc.severity = Severity.warning) ∧
      (¬ tierHits signals CRITICAL_KEYWORDS → ¬ hasHealthSource signals →
        tierHits signals WARNING_KEYWORDS → inc.severity = Severity.warning) ∧
      (¬ tierHits signals CRITICAL_KEYWORDS → ¬ hasHealthSource signals →
        ¬ tierHits signals WARNING_KEYWORDS → inc.severity = Severity.info) := by
  match signals with
  | [] => exact absurd rfl hne
  | primary :: rest =>
    refine ⟨_, rfl, ?_, ?_, ?_, ?_⟩
    · intro hc
      exact classifySeverity_of_crit _ _ hc
    · intro hnc hh
      exact classifySeverity_of_health _ _ hnc hh
    · intro hnc hnh hw
      exact classifySeverity_of_warn _ _ hnc hnh hw
    · intro hnc hnh hnw
      exact classifySeverity_of_none _ _ hnc hnh hnw

/-- Claim C5: the empty batch yields no incident (a normal outcome), so no
incident is ever built from zero signals; every non-empty batch yields an
incident with an empty `remediationActions` list, an unset `resolvedAt`,
and the (non-empty) batch as its `signals`. -/
theorem analyze_empty_none_and_fresh_incident (newId : String) :
    analyze newId [] = none ∧
      ∀ signals : List DetectionSignal, signals ≠ [] →
        ∃ inc, analyze newId signals = some inc ∧
          inc.remediationActions = [] ∧ inc.resolvedAt = none ∧
          inc.signals = signals ∧ inc.signals ≠ [] := by
  refine ⟨rfl, ?_⟩
  intro signals hne
  match signals with
  | [] => exact absurd rfl hne
  | primary :: rest => exact ⟨_, rfl, rfl, rfl, rfl, hne⟩

/-- Witness for C1 at a concrete batch: a single Tavily signal whose text
contains the critical keyword "outage". -/
theorem analyze_severity_first_match_wins_witness :
    ∃ inc,
      analyze "id0"
          [{ source := "tavily", title := "Major outage ongoing",
             summary := "all down", timestamp := "T" }] = some inc ∧
        inc.severity = Severity.critical := by
  obtain ⟨inc, hinc, hcrit, -, -, -⟩ :=
    analyze_severity_first_match_wins "id0"
      [{ source := "tavily", title := "Major outage ongoing",
         summary := "all down", timestamp := "T" }] (by simp)
  exact ⟨inc, hinc, hcrit ⟨"outage", by decide, by decide⟩⟩

/-- Witness for C5 at a concrete non-empty batch. -/
theorem analyze_empty_none_and_fresh_incident_witness :
    ∃ inc,
      analyze "id1"
          [{ source := "render_health", title := "svc slow",
             summary := "degraded", timestamp := "T" }] = some inc ∧
        inc.remediationActions = [] ∧ inc.resolvedAt = none := by
  obtain ⟨inc, hinc, hacts, hres, -, -⟩ :=
    (analyze_empty_none_and_fresh_incident "id1").2
      [{ source := "render_health", title := "svc slow",
         summary := "degraded", timestamp := "T" }] (by simp)
  exact ⟨inc, hinc, hacts, hres⟩

/-! ## Claim C8: post-mortem determinism -/

/-- Claim C8: post-mortem synthesis is a deterministic, idempotent function
of the incident — re-running `generatePostMortem` on the unchanged incident
(at any two clock readings) yields byte-identical narrative sections. -/
theorem generatePostMortem_sections_deterministic (incident : Incident) (t1 t2 : String) :
    (generatePostMortem incident t1).timeline = (generatePostMortem incident t2).timeline ∧
    (generatePostMortem incident t1).rootCause = (generatePostMortem incident t2).rootCause ∧
    (generatePostMortem incident t1).impact = (generatePostMortem incident t2).impact ∧
    (generatePostMortem incident t1).remediation = (generatePostMortem incident t2).remediation ∧
    (generatePostMortem incident t1).lessonsLearned = (generatePostMortem incident t2).lessonsLearned :=
  ⟨rfl, rfl, rfl, rfl, rfl⟩

/-! ## Claim C9: history advisor rates -/

/-- Claim C9: `restartFailRate` is the number of failed past restarts over
the number of past restarts (0 when none occurred), and
`hadFailedRestarts` holds exactly when some past restart failed. -/
theorem analyzePastRemediations_rates (rems : List PastRemediation) :
    (analyzePastRemediations rems).restartFailRate
        = ((rems.countP (fun r => r.type == ActionType.restart && !r.success)) : Rat)
          / ((rems.countP (fun r => r.type == ActionType.restart)) : Rat) ∧
    (rems.countP (fun r => r.type == ActionType.restart) = 0 →
      (analyzePastRemediations rems).restartFailRate = 0) ∧
    ((analyzePastRemediations rems).hadFailedRestarts = true ↔
      ∃ r ∈ rems, r.type = ActionType.restart ∧ r.success = false) := by
  have hff : (rems.filter (fun r => r.type == ActionType.restart)).filter (fun r => !r.success)
      = rems.filter (fun r => r.type == ActionType.restart && !r.success) := by
    rw [List.filter_filter]
    exact List.filter_congr (fun a _ => Bool.and_comm _ _)
  refine ⟨?_, ?_, ?_⟩
  · simp only [analyzePastRemediations, List.countP_eq_length_filter, ← hff]
    by_cases h : 0 < (rems.filter (fun r => r.type == ActionType.restart)).length
    · rw [if_pos h]
    · rw [if_neg h]
      rw [Nat.eq_zero_of_not_pos h, Nat.cast_zero, div_zero]
  · intro h0
    rw [List.countP_eq_length_filter] at h0
    simp only [analyzePastRemediations]
    rw [if_neg (by rw [h0]; exact lt_irrefl 0)]
  · simp only [analyzePastRemediations, decide_eq_true_eq, hff]
    rw [gt_iff_lt, List.length_pos_iff_exists_mem]
    constructor
    · rintro ⟨r, hr⟩
      rw [List.mem_filter] at hr
      obtain ⟨hmem, hp⟩ := hr
      rw [Bool.and_eq_true, beq_iff_eq, Bool.not_eq_true'] at hp
      exact ⟨r, hmem, hp.1, hp.2⟩
    · rintro ⟨r, hmem, hty, hsu⟩
      exact ⟨r, List.mem_filter.mpr ⟨hmem, by simp [hty, hsu]⟩⟩

/-- Witness for C9: no past restarts gives `restartFailRate = 0`. -/
theorem analyzePastRemediations_rates_witness :
    (analyzePastRemediations ([] : List PastRemediation)).restartFailRate = 0 :=
  (analyzePastRemediations_rates []).2.1 (by decide)

/-! ## Claim C2: suspended services

The source resumes a suspended matched service (`render.resumeService`,
description "Resumed suspended service: …") but records the action with
`type: 'restart'`, not `'resume'`; the theorem below evaluates `remediate`
on such an incident and exhibits the recorded type. -/

/-- Claim C2 evaluation: for a warning incident whose declared service
matches a suspended live service, `remediate` emits exactly one action,
recorded with type `restart` (never `resume`), even though its description
documents the performed resume. -/
theorem remediate_suspended_records_restart_type :
    ((remediate
        { pastResults := []
          pastContext := []
          tavilyContext := none
          renderServices := [{ id := "srv1", name := "api-1", status := "suspended" }]
          statusOf := fun _ => some "active"
          restartOk := fun _ => true
          scaleOk := fun _ => true
          resumeOk := fun _ => true
          now := "T" }
        { id := "i", title := "api suspended", summary := "s",
          severity := Severity.warning, detectedAt := "T",
          services := ["api"], errors := [],
          signals := [{ source := "render_health", title := "t", summary := "s",
                        timestamp := "T" }],
          remediationActions := [] }).map
        (fun a => (a.type, a.targetService, a.description, a.success)))
      = [(ActionType.restart, "api-1", "Resumed suspended service: api-1", true)] := by
  decide

/-! ## Claim C7: alert fallback -/

/-- A fold step that leaves every accumulator unchanged leaves the initial
value unchanged. -/
lemma foldl_fixed {α β : Type} (f : β → α → β) :
    ∀ (l : List α) (b : β), (∀ x ∈ l, ∀ acc, f acc x = acc) → l.foldl f b = b
  | [], _, _ => rfl
  | x :: xs, b, h => by
    rw [List.foldl_cons, h x (List.mem_cons_self x xs)]
    exact foldl_fixed f xs b (fun y hy acc => h y (List.mem_cons_of_mem _ hy) acc)

/-- A declared service with no live match contributes nothing. -/
lemma remediateStep_no_match (env : RemediatorEnv) (incident : Incident)
    (pa : PastAnalysis) (sg : List String) (acc : List RemediationAction)
    (s : String) (h : findTarget env s = none) :
    remediateStep env incident pa sg acc s = acc := by
  simp [remediateStep, h]

/-- Claim C7: a non-info incident none of whose declared services matches a
live Render service gets exactly one action, an `alert` targeting the first
declared service, or "unknown" when no service is declared. -/
theorem remediate_no_match_single_alert (env : RemediatorEnv) (inc : Incident)
    (hsev : inc.severity ≠ Severity.info)
    (hnomatch : ∀ s ∈ inc.services, findTarget env s = none) :
    (remediate env inc).map (fun a => (a.type, a.targetService))
      = [(ActionType.alert, inc.services.headD "unknown")] := by
  have hfold :
      inc.services.foldl
        (remediateStep env inc
          (analyzePastRemediations (env.pastResults.flatMap (fun r => r.remediations)))
          (extractSensoGuidance env.pastContext)) [] = [] :=
    foldl_fixed _ _ _ (fun s hs acc => remediateStep_no_match _ _ _ _ _ _ (hnomatch s hs))
  simp [remediate, if_neg hsev, hfold, createAction]

/-- Witness for C7: a warning incident declaring only the unmatched service
"zzz" yields the single alert targeting "zzz". -/
theorem remediate_no_match_single_alert_witness :
    ((remediate
        { pastResults := []
          pastContext := []
          tavilyContext := none
          renderServices := [{ id := "srv1", name := "api-1", status := "active" }]
          statusOf := fun _ => some "active"
          restartOk := fun _ => true
          scaleOk := fun _ => true
          resumeOk := fun _ => true
          now := "T" }
        { id := "i", title := "mystery", summary := "s",
          severity := Severity.warning, detectedAt := "T",
          services := ["zzz"], errors := [],
          signals := [{ source := "tavily", title := "t", summary := "s",
                        timestamp := "T" }],
          remediationActions := [] }).map
        (fun a => (a.type, a.targetService)))
      = [(ActionType.alert, "zzz")] :=
  remediate_no_match_single_alert _ _ (by decide) (by decide)

/-! ## Claim C4: history-driven escalation for warning incidents

The per-service loop starts a fresh chain for every declared service name,
so two declared names matching the same live service duplicate the chain
for that target; the claim's `restart`-then-`scale` shape therefore only
holds per declared service, and the theorem below is scoped to incidents
declaring a single service.  The counterexample following it exhibits the
duplicated chain. -/

/-- Claim C4 as amended: for a warning incident whose single declared
service matches a non-suspended live service, `remediate` emits `restart`
then `scale` when the history advisor reports failed past restarts or the
Senso guidance flags escalation, and `restart` alone when neither holds. -/
theorem remediate_warning_history_escalation (env : RemediatorEnv) (inc : Incident)
    (s : String) (m : RenderService)
    (hsev : inc.severity = Severity.warning)
    (hsvcs : inc.services = [s])
    (hmatch : findTarget env s = some m)
    (hnot : ¬ m.status = "suspended") :
    (((analyzePastRemediations
          (env.pastResults.flatMap (fun r => r.remediations))).hadFailedRestarts = true
        ∨ extractSensoGuidance env.pastContext ≠ []) →
      (remediate env inc).map (fun a => (a.type, a.targetService))
        = [(ActionType.restart, m.name), (ActionType.scale, m.name)]) ∧
    ((analyzePastRemediations
          (env.pastResults.flatMap (fun r => r.remediations))).hadFailedRestarts = false
        ∧ extractSensoGuidance env.pastContext = [] →
      (remediate env inc).map (fun a => (a.type, a.targetService))
        = [(ActionType.restart, m.name)]) := by
  have hne : ¬ inc.severity = Severity.info := by rw [hsev]; intro h; cases h
  have hncrit : ¬ inc.severity = Severity.critical := by rw [hsev]; intro h; cases h
  constructor
  · intro hyp
    have hesc : shouldEscalate inc
        (analyzePastRemediations (env.pastResults.flatMap (fun r => r.remediations)))
        (extractSensoGuidance env.pastContext) = true := by
      unfold shouldEscalate
      by_cases h1 : inc.severity = Severity.warning ∧
          (analyzePastRemediations
            (env.pastResults.flatMap (fun r => r.remediations))).hadFailedRestarts = true
      · rw [if_pos h1]
      · rcases hyp with h | h
        · exact absurd ⟨hsev, h⟩ h1
        · rw [if_neg h1, if_pos ⟨hsev, List.length_pos.mpr h⟩]
    simp [remediate, if_neg hne, hsvcs, remediateStep, hmatch, if_neg hnot, hesc, createAction]
  · rintro ⟨hf, hsg⟩
    have hesc : shouldEscalate inc
        (analyzePastRemediations (env.pastResults.flatMap (fun r => r.remediations)))
        (extractSensoGuidance env.pastContext) = false := by
      unfold shouldEscalate
      rw [if_neg, if_neg]
      · rintro ⟨-, hlen⟩
        rw [hsg] at hlen
        exact absurd hlen (by simp)
      · rintro ⟨-, hff⟩
        rw [hf] at hff
        cases hff
    simp [remediate, if_neg hne, hsvcs, remediateStep, hmatch, if_neg hnot, hesc,
      if_neg hncrit, createAction]

/-- Witness for C4: a failed past restart in the history forces the
`restart` then `scale` chain. -/
theorem remediate_warning_history_escalation_witness :
    ((remediate
        { pastResults := [{ remediations := [{ type := ActionType.restart, success := false }] }]
          pastContext := []
          tavilyContext := none
          renderServices := [{ id := "srv1", name := "api-1", status := "active" }]
          statusOf := fun _ => some "active"
          restartOk := fun _ => true
          scaleOk := fun _ => true
          resumeOk := fun _ => true
          now := "T" }
        { id := "i", title := "api degraded", summary := "s",
          severity := Severity.warning, detectedAt := "T",
          services := ["api"], errors := [],
          signals := [{ source := "render_health", title := "t", summary := "s",
                        timestamp := "T" }],
          remediationActions := [] }).map
        (fun a => (a.type, a.targetService)))
      = [(ActionType.restart, "api-1"), (ActionType.scale, "api-1")] :=
  (remediate_warning_history_escalation _ _ "api"
      { id := "srv1", name := "api-1", status := "active" }
      rfl rfl (by decide) (by decide)).1 (Or.inl (by decide))

/-- Counterexample to C4 as stated: a warning incident declaring both "aws"
and "amazon", which alias the single non-suspended live service
"amazonaws-api", with a failed past restart on record, gets the chain
`[restart, scale, restart, scale]` for that service — the per-service loop
starts a fresh chain for each declared name — not the claimed
`[restart, scale]`. -/
theorem remediate_warning_history_escalation_counterexample :
    (analyzePastRemediations
        (({ pastResults :=
              [{ remediations := [{ type := ActionType.restart, success := false }] }]
            pastContext := []
            tavilyContext := none
            renderServices := [{ id := "srv1", name := "amazonaws-api", status := "active" }]
            statusOf := fun _ => some "active"
            restartOk := fun _ => true
            scaleOk := fun _ => true
            resumeOk := fun _ => true
            now := "T" } : RemediatorEnv).pastResults.flatMap
          (fun r => r.remediations))).hadFailedRestarts = true ∧
    findTarget
        { pastResults :=
            [{ remediations := [{ type := ActionType.restart, success := false }] }]
          pastContext := []
          tavilyContext := none
          renderServices := [{ id := "srv1", name := "amazonaws-api", status := "active" }]
          statusOf := fun _ => some "active"
          restartOk := fun _ => true
          scaleOk := fun _ => true
          resumeOk := fun _ => true
          now := "T" } "aws"
      = some { id := "srv1", name := "amazonaws-api", status := "active" } ∧
    ((remediate
        { pastResults :=
            [{ remediations := [{ type := ActionType.restart, success := false }] }]
          pastContext := []
          tavilyContext := none
          renderServices := [{ id := "srv1", name := "amazonaws-api", status := "active" }]
          statusOf := fun _ => some "active"
          restartOk := fun _ => true
          scaleOk := fun _ => true
          resumeOk := fun _ => true
          now := "T" }
        { id := "i", title := "aws degraded", summary := "s",
          severity := Severity.warning, detectedAt := "T",
          services := ["aws", "amazon"], errors := [],
          signals := [{ source := "tavily", title := "t", summary := "s",
                        timestamp := "T" }],
          remediationActions := [] }).map
        (fun a => (a.type, a.targetService)))
      = [(ActionType.restart, "amazonaws-api"), (ActionType.scale, "amazonaws-api"),
         (ActionType.restart, "amazonaws-api"), (ActionType.scale, "amazonaws-api")] := by
  decide

/-! ## Substring lemmas

Needed to show that the service matched for a declared name is matched
again when validation looks its own `name` up: the declared name is a
segment of the matched name, so any earlier service containing the matched
name would already have contained the declared name. -/

lemma startsWithL_refl (l : List Char) : startsWithL l l = true := by
  induction l with
  | nil => rfl
  | cons a as ih => simp [startsWithL, ih]

lemma subList_refl (l : List Char) : subList l l = true := by
  cases l with
  | nil => rfl
  | cons a as => simp [subList, startsWithL_refl]

lemma startsWithL_trans {a b c : List Char} (h1 : startsWithL a b = true)
    (h2 : startsWithL b c = true) : startsWithL a c = true := by
  induction a generalizing b c with
  | nil => rfl
  | cons x xs ih =>
    cases b with
    | nil => exact absurd h1 (by simp [startsWithL])
    | cons y ys =>
      cases c with
      | nil => exact absurd h2 (by simp [startsWithL])
      | cons z zs =>
        simp only [startsWithL, Bool.and_eq_true, beq_iff_eq] at h1 h2 ⊢
        exact ⟨h1.1.trans h2.1, ih h1.2 h2.2⟩

lemma subList_of_startsWithL {a c : List Char} (h : startsWithL a c = true) :
    subList a c = true := by
  cases c with
  | nil => simpa [subList] using h
  | cons z zs => simp [subList, h]

lemma subList_of_prefix {b : List Char} :
    ∀ {a c : List Char}, startsWithL b c = true → subList a b = true → subList a c = true := by
  induction b with
  | nil =>
    intro a c _ hs
    have ha : startsWithL a [] = true := by simpa [subList] using hs
    cases a with
    | nil => cases c <;> simp [subList, startsWithL]
    | cons x xs => exact absurd ha (by simp [startsWithL])
  | cons y ys ih =>
    intro a c hp hs
    cases c with
    | nil => exact absurd hp (by simp [startsWithL])
    | cons z zs =>
      simp only [subList, Bool.or_eq_true] at hs
      rcases hs with hs | hs
      · exact subList_of_startsWithL (startsWithL_trans hs hp)
      · have hp2 : startsWithL ys zs = true := by
          simp only [startsWithL, Bool.and_eq_true] at hp
          exact hp.2
        have := ih hp2 hs
        simp [subList, this]

lemma subList_trans {a : List Char} :
    ∀ {b c : List Char}, subList a b = true → subList b c = true → subList a c = true := by
  intro b c
  induction c generalizing b with
  | nil =>
    intro h1 h2
    have hb : startsWithL b [] = true := by simpa [subList] using h2
    cases b with
    | nil => exact h1
    | cons y ys => exact absurd hb (by simp [startsWithL])
  | cons z zs ih =>
    intro h1 h2
    simp only [subList, Bool.or_eq_true] at h2
    rcases h2 with h2 | h2
    · exact subList_of_prefix h2 h1
    · have := ih h1 h2
      simp [subList, this]

/-- The service found for a query is found again when queried by its own
name. -/
lemma findTarget_self {env : RemediatorEnv} {s : String} {m : RenderService}
    (h : findTarget env s = some m) : findTarget env m.name = some m := by
  unfold findTarget at h ⊢
  revert h
  generalize env.renderServices = L
  intro h
  induction L with
  | nil => cases h
  | cons a tl ih =>
    cases hpa : strHasSub (jsLower a.name) (jsLower s) with
    | true =>
      simp only [List.find?_cons, hpa, Option.some.injEq] at h
      subst h
      have hself : strHasSub (jsLower a.name) (jsLower a.name) = true := subList_refl _
      simp only [List.find?_cons, hself]
    | false =>
      simp only [List.find?_cons, hpa] at h
      have hm : strHasSub (jsLower m.name) (jsLower s) = true := by
        simpa using List.find?_some h
      have hqa : strHasSub (jsLower a.name) (jsLower m.name) = false := by
        cases hq : strHasSub (jsLower a.name) (jsLower m.name) with
        | false => rfl
        | true =>
          have : strHasSub (jsLower a.name) (jsLower s) = true := subList_trans hm hq
          rw [hpa] at this
          cases this
      simp only [List.find?_cons, hqa]
      exact ih h

/-! ## Validation loop lemmas -/

lemma chainWeight_cons (a : RemediationAction) (l : List RemediationAction) :
    chainWeight (a :: l) = escWeight a + chainWeight l := by
  simp [chainWeight]

lemma escWeight_pos (a : RemediationAction) : 0 < escWeight a := by
  cases h : a.type <;> simp [escWeight, h]

/-- A pending list of terminal or unmatched actions passes through the
validation loop untouched. -/
lemma validateLoop_skip_all (env : RemediatorEnv) :
    ∀ (pending : List RemediationAction) (fuel : Nat) (done : List RemediationAction)
      (hl rt : Bool),
      chainWeight pending ≤ fuel →
      (∀ a ∈ pending, terminalAction a ∨ findTarget env a.targetService = none) →
      validateLoop env fuel pending done hl rt = (done ++ pending, hl, rt)
  | [], fuel, done, hl, rt, _, _ => by cases fuel <;> simp [validateLoop]
  | a :: rest, fuel, done, hl, rt, hw, hskip => by
    have hwpos := escWeight_pos a
    rw [chainWeight_cons] at hw
    cases fuel with
    | zero => omega
    | succ f =>
      have hrest : chainWeight rest ≤ f := by omega
      have htail : ∀ x ∈ rest, terminalAction x ∨ findTarget env x.targetService = none :=
        fun x hx => hskip x (List.mem_cons_of_mem _ hx)
      have hstep :=
        validateLoop_skip_all env rest f (done ++ [a]) hl rt hrest htail
      rcases hskip a (List.mem_cons_self a rest) with hterm | hnone
      · simp only [validateLoop, if_pos (show a.type = ActionType.noop ∨
          a.type = ActionType.alert from hterm), hstep]
        simp
      · simp only [validateLoop]
        by_cases hterm2 : a.type = ActionType.noop ∨ a.type = ActionType.alert
        · rw [if_pos hterm2, hstep]
          simp
        · rw [if_neg hterm2, hnone, hstep]
          simp

/-- When every checked pending action is found healthy, the loop marks each
checked action `validated := true`, appends nothing, and leaves the flags
alone. -/
lemma validateLoop_all_healthy (env : RemediatorEnv) :
    ∀ (pending : List RemediationAction) (fuel : Nat) (done : List RemediationAction)
      (hl rt : Bool),
      chainWeight pending ≤ fuel →
      (∀ a ∈ pending, ¬ terminalAction a → foundHealthy env a) →
      validateLoop env fuel pending done hl rt = (done ++ markAllValidated pending, hl, rt)
  | [], fuel, done, hl, rt, _, _ => by
    cases fuel <;> simp [validateLoop, markAllValidated]
  | a :: rest, fuel, done, hl, rt, hw, hok => by
    have hwpos := escWeight_pos a
    rw [chainWeight_cons] at hw
    cases fuel with
    | zero => omega
    | succ f =>
      have hrest : chainWeight rest ≤ f := by omega
      have htail : ∀ x ∈ rest, ¬ terminalAction x → foundHealthy env x :=
        fun x hx => hok x (List.mem_cons_of_mem _ hx)
      by_cases hterm : terminalAction a
      · have hstep := validateLoop_all_healthy env rest f (done ++ [a]) hl rt hrest htail
        simp only [validateLoop, if_pos (show a.type = ActionType.noop ∨
          a.type = ActionType.alert from hterm), hstep, markAllValidated,
          List.map_cons, if_pos hterm]
        simp [markAllValidated]
      · obtain ⟨m, hfind, hstat⟩ := hok a (List.mem_cons_self a rest) hterm
        have hbeq : (env.statusOf m.id == some "active") = true := by
          simp [hstat]
        have hstep := validateLoop_all_healthy env rest f
          (done ++ [{ a with validated := some true }]) hl rt hrest htail
        simp only [validateLoop,
          if_neg (show ¬ (a.type = ActionType.noop ∨ a.type = ActionType.alert) from hterm),
          hfind, hbeq, eq_self_iff_true, if_true]
        rw [hstep]
        simp only [markAllValidated, List.map_cons, if_neg hterm]
        simp [markAllValidated]

/-- Once the healthy flag is false it stays false. -/
lemma validateLoop_false_absorb (env : RemediatorEnv) :
    ∀ (fuel : Nat) (pending done : List RemediationAction) (rt : Bool),
      (validateLoop env fuel pending done false rt).2.1 = false := by
  intro fuel
  induction fuel with
  | zero => intro pending done rt; cases pending <;> simp [validateLoop]
  | succ f ih =>
    intro pending done rt
    cases pending with
    | nil => simp [validateLoop]
    | cons a rest =>
      simp only [validateLoop]
      by_cases hterm : a.type = ActionType.noop ∨ a.type = ActionType.alert
      · rw [if_pos hterm]; exact ih ..
      · rw [if_neg hterm]
        cases hfind : findTarget env a.targetService with
        | none => exact ih ..
        | some m =>
          simp only []
          by_cases hB : (env.statusOf m.id == some "active") = true
          · rw [if_pos hB]; exact ih ..
          · rw [if_neg hB]
            by_cases hra : a.type = ActionType.restart
            · rw [if_pos hra]; exact ih ..
            · rw [if_neg hra]
              by_cases hsc : a.type = ActionType.scale
              · rw [if_pos hsc]; exact ih ..
              · rw [if_neg hsc]; exact ih ..

/-- A pending checked action found unhealthy drives the final healthy flag
to false. -/
lemma validateLoop_unhealthy_mem (env : RemediatorEnv) :
    ∀ (fuel : Nat) (pending done : List RemediationAction) (rt : Bool),
      chainWeight pending ≤ fuel →
      (∃ a ∈ pending, ¬ terminalAction a ∧ foundUnhealthy env a) →
      (validateLoop env fuel pending done true rt).2.1 = false := by
  intro fuel
  induction fuel with
  | zero =>
    intro pending done rt hw hex
    obtain ⟨a, ha, -, -⟩ := hex
    cases pending with
    | nil => cases ha
    | cons b rest =>
      have := escWeight_pos b
      rw [chainWeight_cons] at hw
      omega
  | succ f ih =>
    intro pending done rt hw hex
    cases pending with
    | nil =>
      obtain ⟨a, ha, -, -⟩ := hex
      cases ha
    | cons b rest =>
      have hwpos := escWeight_pos b
      rw [chainWeight_cons] at hw
      have hrest : chainWeight rest ≤ f := by omega
      simp only [validateLoop]
      obtain ⟨a, ha, hna, hun⟩ := hex
      rcases List.mem_cons.mp ha with rfl | hmem
      · -- the head itself is the unhealthy checked action
        obtain ⟨m, hfind, hstat⟩ := hun
        have hbeq : (env.statusOf m.id == some "active") = false := by
          simpa using hstat
        rw [if_neg (show ¬ (a.type = ActionType.noop ∨ a.type = ActionType.alert) from hna)]
        rw [hfind]
        simp only [hbeq]
        rw [if_neg (show ¬ (false : Bool) = true by simp)]
        by_cases hra : a.type = ActionType.restart
        · rw [if_pos hra]; exact validateLoop_false_absorb ..
        · rw [if_neg hra]
          by_cases hsc : a.type = ActionType.scale
          · rw [if_pos hsc]; exact validateLoop_false_absorb ..
          · rw [if_neg hsc]; exact validateLoop_false_absorb ..
      · -- the witness lies in the tail; process the head by cases
        have hexrest : ∃ x ∈ rest, ¬ terminalAction x ∧ foundUnhealthy env x :=
          ⟨a, hmem, hna, hun⟩
        by_cases hterm : b.type = ActionType.noop ∨ b.type = ActionType.alert
        · rw [if_pos hterm]
          exact ih rest (done ++ [b]) rt hrest hexrest
        · rw [if_neg hterm]
          cases hfind : findTarget env b.targetService with
          | none => exact ih rest (done ++ [b]) rt hrest hexrest
          | some m =>
            simp only []
            by_cases hB : (env.statusOf m.id == some "active") = true
            · rw [if_pos hB, hB]
              exact ih rest (done ++ [{ b with validated := some true }]) rt hrest hexrest
            · rw [if_neg hB]
              by_cases hra : b.type = ActionType.restart
              · rw [if_pos hra]; exact validateLoop_false_absorb ..
              · rw [if_neg hra]
                by_cases hsc : b.type = ActionType.scale
                · rw [if_pos hsc]; exact validateLoop_false_absorb ..
                · rw [if_neg hsc]; exact validateLoop_false_absorb ..

/-! ## Claim C6: validation outcome -/

/-- Claim C6: when every checked target (of a non-terminal action) is found
healthy, validation sets `resolvedAt`, reports healthy, and rewrites the
action list to the same actions with `validated := true` on the checked
ones (no new action); when some checked target is found unhealthy,
`resolvedAt` stays unset while the call still completes with a result. -/
theorem validateRemediation_resolution (env : RemediatorEnv) (inc : Incident) :
    ((∀ a ∈ inc.remediationActions, ¬ terminalAction a → foundHealthy env a) →
      (validateRemediation env inc).2.1 = true ∧
      (validateRemediation env inc).1.resolvedAt = some env.now ∧
      (validateRemediation env inc).1.remediationActions
        = markAllValidated inc.remediationActions) ∧
    ((∃ a ∈ inc.remediationActions, ¬ terminalAction a ∧ foundUnhealthy env a) →
      inc.resolvedAt = none →
      (validateRemediation env inc).2.1 = false ∧
      (validateRemediation env inc).1.resolvedAt = none) := by
  constructor
  · intro h1
    have hloop := validateLoop_all_healthy env inc.remediationActions
      (chainWeight inc.remediationActions) [] true false le_rfl h1
    simp [validateRemediation, hloop]
  · intro h2 hres
    have hloop := validateLoop_unhealthy_mem env
      (chainWeight inc.remediationActions) inc.remediationActions [] false le_rfl h2
    simp [validateRemediation, hloop, hres]

/-- Witness for C6 at a concrete healthy validation run. -/
theorem validateRemediation_resolution_witness :
    (validateRemediation
        { pastResults := []
          pastContext := []
          tavilyContext := none
          renderServices := [{ id := "srv1", name := "api-1", status := "active" }]
          statusOf := fun _ => some "active"
          restartOk := fun _ => true
          scaleOk := fun _ => true
          resumeOk := fun _ => true
          now := "T" }
        { id := "i", title := "t", summary := "s",
          severity := Severity.warning, detectedAt := "T",
          services := ["api"], errors := [],
          signals := [{ source := "render_health", title := "t", summary := "s",
                        timestamp := "T" }],
          remediationActions :=
            [{ id := "", type := ActionType.restart,
               targetService := "api", description := "d", executedAt := "T",
               success := true }] }).2.1 = true ∧
    (validateRemediation
        { pastResults := []
          pastContext := []
          tavilyContext := none
          renderServices := [{ id := "srv1", name := "api-1", status := "active" }]
          statusOf := fun _ => some "active"
          restartOk := fun _ => true
          scaleOk := fun _ => true
          resumeOk := fun _ => true
          now := "T" }
        { id := "i", title := "t", summary := "s",
          severity := Severity.warning, detectedAt := "T",
          services := ["api"], errors := [],
          signals := [{ source := "render_health", title := "t", summary := "s",
                        timestamp := "T" }],
          remediationActions :=
            [{ id := "", type := ActionType.restart,
               targetService := "api", description := "d", executedAt := "T",
               success := true }] }).1.resolvedAt = some "T" := by
  have h := (validateRemediation_resolution
    { pastResults := []
      pastContext := []
      tavilyContext := none
      renderServices := [{ id := "srv1", name := "api-1", status := "active" }]
      statusOf := fun _ => some "active"
      restartOk := fun _ => true
      scaleOk := fun _ => true
      resumeOk := fun _ => true
      now := "T" }
    { id := "i", title := "t", summary := "s",
      severity := Severity.warning, detectedAt := "T",
      services := ["api"], errors := [],
      signals := [{ source := "render_health", title := "t", summary := "s",
                    timestamp := "T" }],
      remediationActions :=
        [{ id := "", type := ActionType.restart,
           targetService := "api", description := "d", executedAt := "T",
           success := true }] }).1 (by
      intro a ha hterm
      rw [List.mem_singleton] at ha
      subst ha
      exact ⟨{ id := "srv1", name := "api-1", status := "active" }, by decide, by decide⟩)
  exact ⟨h.1, h.2.1⟩

/-! ## Claim C10: vacuous validation

As stated the claim is refuted by a `resume`-typed action: `resume` is
neither `restart` nor `scale`, so an incident whose only action is a
matched, unhealthy `resume` satisfies the claim's condition, yet the loop
health-checks it (only `noop`/`alert` are skipped), reports unhealthy and
leaves `resolvedAt` unset. -/

/-- Counterexample to C10 as stated: an incident whose only action is a
`resume` targeting a matched, unhealthy service has no `restart` or `scale`
action at all, yet validation reports unhealthy and does not resolve. -/
theorem validateRemediation_vacuous_counterexample :
    (∀ a ∈ ({ id := "i", title := "t", summary := "s",
              severity := Severity.warning, detectedAt := "T",
              services := ["api"], errors := [],
              signals := [{ source := "render_health", title := "t", summary := "s",
                            timestamp := "T" }],
              remediationActions :=
                [{ id := "", type := ActionType.resume,
                   targetService := "api", description := "d", executedAt := "T",
                   success := true }] } : Incident).remediationActions,
        ¬ (a.type = ActionType.restart ∨ a.type = ActionType.scale)) ∧
    (validateRemediation
        { pastResults := []
          pastContext := []
          tavilyContext := none
          renderServices := [{ id := "srv1", name := "api-1", status := "suspended" }]
          statusOf := fun _ => some "suspended"
          restartOk := fun _ => true
          scaleOk := fun _ => true
          resumeOk := fun _ => true
          now := "T" }
        { id := "i", title := "t", summary := "s",
          severity := Severity.warning, detectedAt := "T",
          services := ["api"], errors := [],
          signals := [{ source := "render_health", title := "t", summary := "s",
                        timestamp := "T" }],
          remediationActions :=
            [{ id := "", type := ActionType.resume,
               targetService := "api", description := "d", executedAt := "T",
               success := true }] }).2.1 = false ∧
    (validateRemediation
        { pastResults := []
          pastContext := []
          tavilyContext := none
          renderServices := [{ id := "srv1", name := "api-1", status := "suspended" }]
          statusOf := fun _ => some "suspended"
          restartOk := fun _ => true
          scaleOk := fun _ => true
          resumeOk := fun _ => true
          now := "T" }
        { id := "i", title := "t", summary := "s",
          severity := Severity.warning, detectedAt := "T",
          services := ["api"], errors := [],
          signals := [{ source := "render_health", title := "t", summary := "s",
                        timestamp := "T" }],
          remediationActions :=
            [{ id := "", type := ActionType.resume,
               targetService := "api", description := "d", executedAt := "T",
               success := true }] }).1.resolvedAt = none := by
  decide

/-- Claim C10 as amended: when no non-terminal action — `restart`, `scale`
or `resume` — matches any live service (in particular when every action is
`noop` or `alert`), validation performs no health check, reports healthy,
leaves the action list unchanged and marks the incident resolved. -/
theorem validateRemediation_vacuous_resolution (env : RemediatorEnv) (inc : Incident)
    (h : ∀ a ∈ inc.remediationActions,
      terminalAction a ∨ findTarget env a.targetService = none) :
    (validateRemediation env inc).2.1 = true ∧
    (validateRemediation env inc).1.resolvedAt = some env.now ∧
    (validateRemediation env inc).1.remediationActions = inc.remediationActions := by
  have hloop := validateLoop_skip_all env inc.remediationActions
    (chainWeight inc.remediationActions) [] true false le_rfl h
  simp [validateRemediation, hloop]

/-- Witness for the amended C10: an alert-only incident resolves vacuously. -/
theorem validateRemediation_vacuous_resolution_witness :
    (validateRemediation
        { pastResults := []
          pastContext := []
          tavilyContext := none
          renderServices := [{ id := "srv1", name := "api-1", status := "suspended" }]
          statusOf := fun _ => some "suspended"
          restartOk := fun _ => true
          scaleOk := fun _ => true
          resumeOk := fun _ => true
          now := "T" }
        { id := "i", title := "t", summary := "s",
          severity := Severity.warning, detectedAt := "T",
          services := ["zzz"], errors := [],
          signals := [{ source := "tavily", title := "t", summary := "s",
                        timestamp := "T" }],
          remediationActions :=
            [{ id := "", type := ActionType.alert,
               targetService := "zzz", description := "d", executedAt := "T",
               success := true }] }).1.resolvedAt = some "T" :=
  (validateRemediation_vacuous_resolution _ _ (by decide)).2.1

/-! ## Claim C3: escalation chain shape -/

/-- Unhealthy validation of a lone `restart`: the pass cascades through the
appended `scale`, finishing with its `alert` escalation. -/
lemma validateLoop_one_restart_unhealthy (env : RemediatorEnv)
    (a : RemediationAction) (m : RenderService)
    (hty : a.type = ActionType.restart) (htar : a.targetService = m.name)
    (hfind : findTarget env m.name = some m)
    (hB : (env.statusOf m.id == some "active") = false) :
    validateLoop env (chainWeight [a]) [a] [] true false
      = ([{ a with validated := some false },
          { escScaleAction env m with validated := some false },
          escAlertAction env m], false, true) := by
  simp [validateLoop, chainWeight, escWeight, hty, htar, hfind, hB,
    escScaleAction, escAlertAction, createAction]

/-- Unhealthy validation of a `restart` followed by a `scale` for the same
target: both original actions fail, the restart's `scale` escalation is
itself visited and fails, and two `alert` escalations are appended. -/
lemma validateLoop_pair_unhealthy (env : RemediatorEnv)
    (a b : RemediationAction) (m : RenderService)
    (hta : a.type = ActionType.restart) (htva : a.targetService = m.name)
    (htb : b.type = ActionType.scale) (htvb : b.targetService = m.name)
    (hfind : findTarget env m.name = some m)
    (hB : (env.statusOf m.id == some "active") = false) :
    validateLoop env (chainWeight [a, b]) [a, b] [] true false
      = ([{ a with validated := some false },
          { b with validated := some false },
          { escScaleAction env m with validated := some false },
          escAlertAction env m,
          escAlertAction env m], false, true) := by
  simp [validateLoop, chainWeight, escWeight, hta, htva, htb, htvb, hfind, hB,
    escScaleAction, escAlertAction, createAction]

/-- Inverting a mapped singleton. -/
lemma map_eq_one {α β : Type} {f : α → β} {l : List α} {x : β}
    (h : l.map f = [x]) : ∃ a, l = [a] ∧ f a = x := by
  cases l with
  | nil => cases h
  | cons a t =>
    simp only [List.map_cons, List.cons.injEq] at h
    obtain ⟨h1, h2⟩ := h
    rw [List.map_eq_nil_iff] at h2
    exact ⟨a, by rw [h2], h1⟩

/-- Inverting a mapped pair. -/
lemma map_eq_two {α β : Type} {f : α → β} {l : List α} {x y : β}
    (h : l.map f = [x, y]) : ∃ a b, l = [a, b] ∧ f a = x ∧ f b = y := by
  cases l with
  | nil => cases h
  | cons a t =>
    simp only [List.map_cons, List.cons.injEq] at h
    obtain ⟨h1, h2⟩ := h
    obtain ⟨b, hb, hfb⟩ := map_eq_one h2
    exact ⟨a, b, by rw [hb], h1, hfb⟩

/-- Shape of `remediate` for an info incident: a single `noop`. -/
lemma remediate_shape_info (env : RemediatorEnv) (inc : Incident)
    (hinfo : inc.severity = Severity.info) :
    ∃ A, remediate env inc = [A] ∧ A.type = ActionType.noop := by
  have hmap : (remediate env inc).map (fun a => (a.type, a.targetService))
      = [(ActionType.noop, "none")] := by
    simp [remediate, hinfo, createAction]
  obtain ⟨A, hA, hf⟩ := map_eq_one hmap
  rw [Prod.mk.injEq] at hf
  exact ⟨A, hA, hf.1⟩

/-- Shape of `remediate` for a suspended matched single service. -/
lemma remediate_shape_suspended (env : RemediatorEnv) (inc : Incident)
    (s : String) (m : RenderService)
    (hne : ¬ inc.severity = Severity.info) (hsvcs : inc.services = [s])
    (hm : findTarget env s = some m) (hsusp : m.status = "suspended") :
    ∃ A, remediate env inc = [A] ∧ A.type = ActionType.restart ∧
      A.targetService = m.name := by
  have hmap : (remediate env inc).map (fun a => (a.type, a.targetService))
      = [(ActionType.restart, m.name)] := by
    simp [remediate, if_neg hne, hsvcs, remediateStep, hm, if_pos hsusp, createAction]
  obtain ⟨A, hA, hf⟩ := map_eq_one hmap
  rw [Prod.mk.injEq] at hf
  exact ⟨A, hA, hf.1, hf.2⟩

/-- Shape of `remediate` for a matched, non-suspended single service when
either the escalation advice fires or the incident is critical: `restart`
then `scale`. -/
lemma remediate_shape_pair (env : RemediatorEnv) (inc : Incident)
    (s : String) (m : RenderService)
    (hne : ¬ inc.severity = Severity.info) (hsvcs : inc.services = [s])
    (hm : findTarget env s = some m) (hsusp : ¬ m.status = "suspended")
    (hbranch : shouldEscalate inc
        (analyzePastRemediations (env.pastResults.flatMap (fun r => r.remediations)))
        (extractSensoGuidance env.pastContext) = true ∨
      inc.severity = Severity.critical) :
    ∃ A B, remediate env inc = [A, B] ∧ A.type = ActionType.restart ∧
      A.targetService = m.name ∧ B.type = ActionType.scale ∧
      B.targetService = m.name := by
  have hmap : (remediate env inc).map (fun a => (a.type, a.targetService))
      = [(ActionType.restart, m.name), (ActionType.scale, m.name)] := by
    rcases hbranch with hesc | hcrit
    · simp [remediate, if_neg hne, hsvcs, remediateStep, hm, if_neg hsusp, hesc,
        createAction]
    · by_cases hesc : shouldEscalate inc
          (analyzePastRemediations (env.pastResults.flatMap (fun r => r.remediations)))
          (extractSensoGuidance env.pastContext) = true
      · simp [remediate, if_neg hne, hsvcs, remediateStep, hm, if_neg hsusp, hesc,
          createAction]
      · rw [Bool.not_eq_true] at hesc
        simp [remediate, if_neg hne, hsvcs, remediateStep, hm, if_neg hsusp, hesc,
          hcrit, createAction]
  obtain ⟨A, B, hAB, hfA, hfB⟩ := map_eq_two hmap
  rw [Prod.mk.injEq] at hfA hfB
  exact ⟨A, B, hAB, hfA.1, hfA.2, hfB.1, hfB.2⟩

/-- Shape of `remediate` for a matched, non-suspended single service with no
escalation signal and non-critical severity: a single `restart`. -/
lemma remediate_shape_restart_only (env : RemediatorEnv) (inc : Incident)
    (s : String) (m : RenderService)
    (hne : ¬ inc.severity = Severity.info) (hsvcs : inc.services = [s])
    (hm : findTarget env s = some m) (hsusp : ¬ m.status = "suspended")
    (hesc : shouldEscalate inc
        (analyzePastRemediations (env.pastResults.flatMap (fun r => r.remediations)))
        (extractSensoGuidance env.pastContext) = false)
    (hncrit : ¬ inc.severity = Severity.critical) :
    ∃ A, remediate env inc = [A] ∧ A.type = ActionType.restart ∧
      A.targetService = m.name := by
  have hmap : (remediate env inc).map (fun a => (a.type, a.targetService))
      = [(ActionType.restart, m.name)] := by
    simp [remediate, if_neg hne, hsvcs, remediateStep, hm, if_neg hsusp, hesc,
      if_neg hncrit, createAction]
  obtain ⟨A, hA, hf⟩ := map_eq_one hmap
  rw [Prod.mk.injEq] at hf
  exact ⟨A, hA, hf.1, hf.2⟩

/-- Shape of `remediate` when the single declared service has no live match:
a single `alert`. -/
lemma remediate_shape_alert (env : RemediatorEnv) (inc : Incident)
    (s : String)
    (hne : ¬ inc.severity = Severity.info) (hsvcs : inc.services = [s])
    (hm : findTarget env s = none) :
    ∃ A, remediate env inc = [A] ∧ A.type = ActionType.alert := by
  have hmap : (remediate env inc).map (fun a => (a.type, a.targetService))
      = [(ActionType.alert, s)] := by
    simp [remediate, if_neg hne, hsvcs, remediateStep, hm, createAction]
  obtain ⟨A, hA, hf⟩ := map_eq_one hmap
  rw [Prod.mk.injEq] at hf
  exact ⟨A, hA, hf.1⟩

/-- Claim C3 as amended: for an incident declaring a single service, the
full action chain accumulated across `remediate` and `validateRemediation`
contains at most 5 actions, never contains a `restart` action after a
`scale` action, and ends in a terminal action (`alert`/`noop`) or in an
action validated healthy. -/
theorem remediateAndValidate_single_service_chain (env : RemediatorEnv) (inc : Incident)
    (s : String) (hsvcs : inc.services = [s]) :
    ((remediateAndValidate env inc).1.remediationActions).length ≤ 5 ∧
    ((remediateAndValidate env inc).1.remediationActions).Pairwise
      (fun x y => ¬ (x.type = ActionType.scale ∧ y.type = ActionType.restart)) ∧
    (∃ last, ((remediateAndValidate env inc).1.remediationActions).getLast? = some last ∧
      (terminalAction last ∨ last.validated = some true)) := by
  have hglue : (remediateAndValidate env inc).1.remediationActions
      = (validateLoop env (chainWeight (remediate env inc)) (remediate env inc)
          [] true false).1 := by
    simp [remediateAndValidate, validateRemediation]
  by_cases hinfo : inc.severity = Severity.info
  · obtain ⟨A, hA, hty⟩ := remediate_shape_info env inc hinfo
    have hskip := validateLoop_skip_all env [A] (chainWeight [A]) [] true false le_rfl
      (fun a ha => by
        rw [List.mem_singleton] at ha
        subst ha
        exact Or.inl (Or.inl hty))
    rw [hglue, hA, hskip]
    exact ⟨by simp, by simp, A, rfl, Or.inl (Or.inl hty)⟩
  · cases hm : findTarget env s with
    | none =>
      obtain ⟨A, hA, hty⟩ := remediate_shape_alert env inc s hinfo hsvcs hm
      have hskip := validateLoop_skip_all env [A] (chainWeight [A]) [] true false le_rfl
        (fun a ha => by
          rw [List.mem_singleton] at ha
          subst ha
          exact Or.inl (Or.inr hty))
      rw [hglue, hA, hskip]
      exact ⟨by simp, by simp, A, rfl, Or.inl (Or.inr hty)⟩
    | some m =>
      have hfind2 := findTarget_self hm
      by_cases hB : (env.statusOf m.id == some "active") = true
      · -- every check of this target passes
        have hstat : env.statusOf m.id = some "active" := by simpa using hB
        by_cases hsusp : m.status = "suspended"
        · obtain ⟨A, hA, hty, htar⟩ :=
            remediate_shape_suspended env inc s m hinfo hsvcs hm hsusp
          have hnt : ¬ terminalAction A := by
            rw [terminalAction, hty]; simp
          have hloop := validateLoop_all_healthy env [A] (chainWeight [A]) [] true false
            le_rfl (fun a ha _ => by
              rw [List.mem_singleton] at ha
              subst ha
              exact ⟨m, by rw [htar]; exact hfind2, hstat⟩)
          rw [hglue, hA, hloop]
          refine ⟨by simp [markAllValidated], by simp [markAllValidated], ?_⟩
          refine ⟨{ A with validated := some true }, ?_, Or.inr rfl⟩
          simp [markAllValidated, if_neg hnt]
        · by_cases hpair : shouldEscalate inc
              (analyzePastRemediations (env.pastResults.flatMap (fun r => r.remediations)))
              (extractSensoGuidance env.pastContext) = true ∨
            inc.severity = Severity.critical
          · obtain ⟨A, B, hAB, htyA, htarA, htyB, htarB⟩ :=
              remediate_shape_pair env inc s m hinfo hsvcs hm hsusp hpair
            have hntA : ¬ terminalAction A := by rw [terminalAction, htyA]; simp
            have hntB : ¬ terminalAction B := by rw [terminalAction, htyB]; simp
            have hloop := validateLoop_all_healthy env [A, B] (chainWeight [A, B]) []
              true false le_rfl (fun a ha _ => by
                rcases List.mem_cons.mp ha with rfl | ha2
                · exact ⟨m, by rw [htarA]; exact hfind2, hstat⟩
                · rw [List.mem_singleton] at ha2
                  subst ha2
                  exact ⟨m, by rw [htarB]; exact hfind2, hstat⟩)
            rw [hglue, hAB, hloop]
            refine ⟨by simp [markAllValidated], ?_, ?_⟩
            · simp only [markAllValidated, List.nil_append, List.map_cons, List.map_nil,
                if_neg hntA, if_neg hntB]
              refine List.pairwise_cons.mpr ⟨?_, List.pairwise_singleton ..⟩
              intro y hy
              rw [List.mem_singleton] at hy
              subst hy
              intro hcon
              rw [show ({ A with validated := some true } : RemediationAction).type
                = A.type from rfl, htyA] at hcon
              cases hcon.1
            · refine ⟨{ B with validated := some true }, ?_, Or.inr rfl⟩
              simp [markAllValidated, if_neg hntA, if_neg hntB]
          · rw [not_or, Bool.not_eq_true] at hpair
            obtain ⟨hesc, hncrit⟩ := hpair
            obtain ⟨A, hA, hty, htar⟩ :=
              remediate_shape_restart_only env inc s m hinfo hsvcs hm hsusp hesc hncrit
            have hnt : ¬ terminalAction A := by rw [terminalAction, hty]; simp
            have hloop := validateLoop_all_healthy env [A] (chainWeight [A]) [] true false
              le_rfl (fun a ha _ => by
                rw [List.mem_singleton] at ha
                subst ha
                exact ⟨m, by rw [htar]; exact hfind2, hstat⟩)
            rw [hglue, hA, hloop]
            refine ⟨by simp [markAllValidated], by simp [markAllValidated], ?_⟩
            refine ⟨{ A with validated := some true }, ?_, Or.inr rfl⟩
            simp [markAllValidated, if_neg hnt]
      · -- every check of this target fails
        rw [Bool.not_eq_true] at hB
        by_cases hsusp : m.status = "suspended"
        · obtain ⟨A, hA, hty, htar⟩ :=
            remediate_shape_suspended env inc s m hinfo hsvcs hm hsusp
          have hloop := validateLoop_one_restart_unhealthy env A m hty htar hfind2 hB
          rw [hglue, hA, hloop]
          refine ⟨by simp, ?_, ?_⟩
          · simp [List.pairwise_cons, hty, escScaleAction, escAlertAction, createAction]
          · exact ⟨escAlertAction env m, rfl, Or.inl (Or.inr rfl)⟩
        · by_cases hpair : shouldEscalate inc
              (analyzePastRemediations (env.pastResults.flatMap (fun r => r.remediations)))
              (extractSensoGuidance env.pastContext) = true ∨
            inc.severity = Severity.critical
          · obtain ⟨A, B, hAB, htyA, htarA, htyB, htarB⟩ :=
              remediate_shape_pair env inc s m hinfo hsvcs hm hsusp hpair
            have hloop := validateLoop_pair_unhealthy env A B m htyA htarA htyB htarB
              hfind2 hB
            rw [hglue, hAB, hloop]
            refine ⟨by simp, ?_, ?_⟩
            · simp [List.pairwise_cons, htyA, htyB, escScaleAction, escAlertAction,
                createAction]
            · exact ⟨escAlertAction env m, rfl, Or.inl (Or.inr rfl)⟩
          · rw [not_or, Bool.not_eq_true] at hpair
            obtain ⟨hesc, hncrit⟩ := hpair
            obtain ⟨A, hA, hty, htar⟩ :=
              remediate_shape_restart_only env inc s m hinfo hsvcs hm hsusp hesc hncrit
            have hloop := validateLoop_one_restart_unhealthy env A m hty htar hfind2 hB
            rw [hglue, hA, hloop]
            refine ⟨by simp, ?_, ?_⟩
            · simp [List.pairwise_cons, hty, escScaleAction, escAlertAction, createAction]
            · exact ⟨escAlertAction env m, rfl, Or.inl (Or.inr rfl)⟩

/-- Counterexample to C3 as stated: a critical incident on one matched
service that stays unhealthy accumulates five actions for that target —
`restart`, `scale`, the cascaded `scale` escalation, and two `alert`
escalations — exceeding the claimed bound of three. -/
theorem chain_at_most_three_counterexample :
    ¬ ((((remediateAndValidate
        { pastResults := []
          pastContext := []
          tavilyContext := none
          renderServices := [{ id := "srv1", name := "api-1", status := "active" }]
          statusOf := fun _ => some "suspended"
          restartOk := fun _ => true
          scaleOk := fun _ => true
          resumeOk := fun _ => true
          now := "T" }
        { id := "i", title := "memory exhaustion", summary := "s",
          severity := Severity.critical, detectedAt := "T",
          services := ["api"], errors := [],
          signals := [{ source := "render_health", title := "t", summary := "s",
                        timestamp := "T" }],
          remediationActions := [] }).1.remediationActions.filter
        (fun a => a.targetService == "api-1")).length ≤ 3)) := by
  decide

/-- Witness for the amended C3 at a concrete single-service incident. -/
theorem remediateAndValidate_single_service_chain_witness :
    ((remediateAndValidate
        { pastResults := []
          pastContext := []
          tavilyContext := none
          renderServices := [{ id := "srv1", name := "api-1", status := "active" }]
          statusOf := fun _ => some "suspended"
          restartOk := fun _ => true
          scaleOk := fun _ => true
          resumeOk := fun _ => true
          now := "T" }
        { id := "i", title := "memory exhaustion", summary := "s",
          severity := Severity.critical, detectedAt := "T",
          services := ["api"], errors := [],
          signals := [{ source := "render_health", title := "t", summary := "s",
                        timestamp := "T" }],
          remediationActions := [] }).1.remediationActions).length ≤ 5 :=
  (remediateAndValidate_single_service_chain _ _ "api" rfl).1

end GhostOperator
